import Mathlib

/-!
Shallow embedding of src/nmapMatrix.py, a single linear Python script that
classifies nmap .gnmap scan files into PCI / non-PCI network segments and
renders a host-reachability matrix as colourised text and as an HTML file.

Python strings are modelled as Lean String (lists of characters); Python dicts
(insertion-ordered, overwriting insert keeps the original position) are
modelled as association lists with an insert that updates in place; Python
sets of host strings are modelled as duplicate-free lists in insertion order
(only membership and sorted output are ever observed). Unhandled Python
exceptions (IndexError from parts[1], ValueError from max() on an empty
sequence) are modelled as Option: none means the run aborts. String lowering
is modelled for ASCII, which is what Python str.lower does on the ASCII
filenames this tool is driven by.
-/

/-- ASCII whitespace as recognised by Python str.split() / str.strip(). -/
def isPySpace (c : Char) : Bool :=
  c == ' ' || c == '\t' || c == '\n' || c == '\r' || c == '\x0b' || c == '\x0c'

/-- Python str.split() with no argument: split on runs of whitespace,
dropping empty fields. `cur` is the current token accumulated in reverse. -/
def splitWsGo (cur : List Char) : List Char → List (List Char)
  | [] => if cur.isEmpty then [] else [cur.reverse]
  | c :: rest =>
    if isPySpace c then
      if cur.isEmpty then splitWsGo [] rest
      else cur.reverse :: splitWsGo [] rest
    else splitWsGo (c :: cur) rest

/-- Python line.split(): the list of whitespace-separated tokens. -/
def pySplit (s : String) : List String :=
  (splitWsGo [] s.data).map String.mk

/-- List-of-characters starts-with test. -/
def isPrefixL : List Char → List Char → Bool
  | [], _ => true
  | _ :: _, [] => false
  | a :: as, b :: bs => a == b && isPrefixL as bs

/-- Substring containment, as in a Python `pat in s` test. -/
def isSubL (pat : List Char) : List Char → Bool
  | [] => isPrefixL pat []
  | c :: rest => isPrefixL pat (c :: rest) || isSubL pat rest

/-- Python `s.startswith(pat)`. -/
def pyStartswith (s pat : String) : Bool :=
  isPrefixL pat.data s.data

/-- Python `pat in s`. -/
def pyContains (s pat : String) : Bool :=
  isSubL pat.data s.data

/-- Python str.lower on one character (ASCII range, which is all this tool
meets in practice). -/
def pyLowerChar (c : Char) : Char :=
  if 'A' ≤ c && c ≤ 'Z' then Char.ofNat (c.toNat + 32) else c

/-- Python base.lower() over the characters of a string. -/
def pyLower (l : List Char) : List Char :=
  l.map pyLowerChar

/-- Python str.strip(): drop leading and trailing whitespace. -/
def pyStripChars (l : List Char) : List Char :=
  ((l.dropWhile isPySpace).reverse.dropWhile isPySpace).reverse

/-- Index of the last dot in the character list, if any. -/
def rfindDot : List Char → Option Nat
  | [] => none
  | c :: rest =>
    match rfindDot rest with
    | some i => some (i + 1)
    | none => if c == '.' then some 0 else none

/-- Root of os.path.splitext(filename) for a separator-free filename (what
glob("*.gnmap") yields in the working directory): split at the last dot,
unless every character before it is itself a dot (leading dots are not
extension separators). -/
def splitextBase (l : List Char) : List Char :=
  match rfindDot l with
  | none => l
  | some i => if (l.take i).all (fun c => c == '.') then l else l.take i

/-- parse_segment from the source: derive (segment_type, segment_name) from a
filename.  The extension-stripped base is lowered and tested against the
prefixes "pci -" and "non pci -"; the name is the remainder after 6
(respectively 10) characters of the original base, stripped. -/
def parse_segment (filename : String) : String × String :=
  let base := splitextBase filename.data
  if isPrefixL ("pci -").data (pyLower base) then
    ("pci", String.mk (pyStripChars (base.drop 6)))
  else if isPrefixL ("non pci -").data (pyLower base) then
    ("non_pci", String.mk (pyStripChars (base.drop 10)))
  else
    ("unknown", String.mk base)

example : parse_segment "PCI - DMZ.gnmap" = ("pci", "DMZ") := by decide
example : parse_segment "NON PCI - Corp.gnmap" = ("non_pci", "Corp") := by decide
example : parse_segment "Other.gnmap" = ("unknown", "Other") := by decide

/-! ### Python dict and set models -/

/-- Python dict assignment d[k] = v: overwrite in place if the key is
present (keeping its insertion position), else append at the end. -/
def dictInsert {A : Type} (k : String) (v : A) (d : List (String × A)) :
    List (String × A) :=
  if d.any (fun p => p.1 == k) then
    d.map (fun p => if p.1 == k then (k, v) else p)
  else d ++ [(k, v)]

/-- Python d.get(k) as an Option. -/
def dictGet {A : Type} (k : String) (d : List (String × A)) : Option A :=
  (d.find? (fun p => p.1 == k)).map Prod.snd

/-- Python d.get(k, dflt). -/
def dictGetD {A : Type} (k : String) (d : List (String × A)) (dflt : A) : A :=
  (dictGet k d).getD dflt

/-- Python set.add on a host set modelled as a duplicate-free list in
insertion order. -/
def setAdd (x : String) (s : List String) : List String :=
  if s.contains x then s else s ++ [x]

/-! ### Loader (lines 36-47 of the script) -/

/-- One input file: its on-disk name and its lines. -/
structure InputFile where
  name : String
  lines : List String
deriving DecidableEq

/-- Processing of a single line of a .gnmap file inside the loading loop.
`none` models the IndexError raised by `parts[1]` when a Host: line has
fewer than two whitespace tokens; `some none` means the line adds no host;
`some (some ip)` means ip is added to the set of the segment. -/
def parseLine (line : String) : Option (Option String) :=
  if pyStartswith line "Host:" then
    match (pySplit line)[1]? with
    | none => none
    | some ip =>
      if pyContains line "Ports:" && pyContains line "open" then some (some ip)
      else some none
  else some none

/-- Fold step over the lines of one file, threading the abort state. -/
def parseFileStep (acc : Option (List String)) (line : String) :
    Option (List String) :=
  match acc with
  | none => none
  | some hosts =>
    match parseLine line with
    | none => none
    | some none => some hosts
    | some (some ip) => some (setAdd ip hosts)

/-- The set of reachable hosts extracted from the lines of one file. -/
def parseFileHosts (lines : List String) : Option (List String) :=
  lines.foldl parseFileStep (some [])

/-- State built by the loading loop: segment_hosts and segment_types. -/
abbrev SegHosts := List (String × List String)
abbrev SegTypes := List (String × String)

/-- Fold step of the file-loading loop (one iteration of lines 36-47):
derive the segment, assign segment_types[seg_name], parse the file, assign
segment_hosts[seg_name]. -/
def loadStep (acc : Option (SegHosts × SegTypes)) (file : InputFile) :
    Option (SegHosts × SegTypes) :=
  match acc with
  | none => none
  | some (sh, st) =>
    let ts := parse_segment file.name
    let st2 := dictInsert ts.2 ts.1 st
    match parseFileHosts file.lines with
    | none => none
    | some hosts => some (dictInsert ts.2 hosts sh, st2)

/-- The whole loading loop over the discovered files, in discovery order. -/
def loadFiles (files : List InputFile) : Option (SegHosts × SegTypes) :=
  files.foldl loadStep (some ([], []))

/-! ### Aggregator (lines 49-63) -/

/-- Lexicographic (code-point) strict order on strings, as Python compares
them. -/
def strLtL : List Char → List Char → Bool
  | [], [] => false
  | [], _ :: _ => true
  | _ :: _, [] => false
  | x :: xs, y :: ys =>
    if x == y then strLtL xs ys else decide (x.toNat < y.toNat)

/-- Insert a string into a lexicographically sorted list. -/
def insertStr (x : String) : List String → List String
  | [] => [x]
  | y :: ys => if strLtL x.data y.data then x :: y :: ys else y :: insertStr x ys

/-- Python sorted() on a list of strings (the inputs here are
duplicate-free, so stability is moot). -/
def sortStrs (l : List String) : List String :=
  l.foldr insertStr []

/-- Union of all per-segment host sets, in dict-value order (lines 50-52). -/
def collectHosts (sh : SegHosts) : List String :=
  sh.foldl (fun acc p => p.2.foldl (fun a h => setAdd h a) acc) []

/-- all_hosts: the sorted, deduplicated union of the host sets of all segments. -/
def allHostsOf (sh : SegHosts) : List String :=
  sortStrs (collectHosts sh)

/-- pci_segments (line 56). -/
def pciSegments (st : SegTypes) : List String :=
  (st.filter (fun p => p.2 == "pci")).map Prod.fst

/-- non_pci_segments (line 57). -/
def nonPciSegments (st : SegTypes) : List String :=
  (st.filter (fun p => p.2 == "non_pci")).map Prod.fst

/-- unknown_segments (line 58): every segment whose type is neither pci nor
non_pci. -/
def unknownSegments (st : SegTypes) : List String :=
  (st.filter (fun p => !(p.2 == "pci") && !(p.2 == "non_pci"))).map Prod.fst

/-- ordered_segments (line 59): PCI first, then NON PCI, then unknown. -/
def orderedSegments (st : SegTypes) : List String :=
  pciSegments st ++ nonPciSegments st ++ unknownSegments st

/-- Length of the longest string of a list, as Python
max(len(x) for x in l); none on an empty list (ValueError). -/
def maxStrLen (l : List String) : Option Nat :=
  match l with
  | [] => none
  | x :: xs => some (xs.foldl (fun m h => max m h.data.length) x.data.length)

/-- host_col_width (line 62): max(15, longest host + 2); aborts on an empty
host list. -/
def hostColWidth (allHosts : List String) : Option Nat :=
  (maxStrLen allHosts).map (fun m => max 15 (m + 2))

/-- seg_col_width (line 63): max(15, longest segment name + 2); aborts when
there are no segments. -/
def segColWidth (sh : SegHosts) : Option Nat :=
  (maxStrLen (sh.map Prod.fst)).map (fun m => max 15 (m + 2))

/-! ### Classifier (lines 85-87, 106-110, 155-157) -/

/-- ANSI colour constants from the top of the script. -/
def RED : String := "\x1b[91m"

def YELLOW : String := "\x1b[93m"

def GREEN : String := "\x1b[92m"

def CYAN : String := "\x1b[96m"

def RESET : String := "\x1b[0m"

def BOLD : String := "\x1b[1m"

/-- segments_reaching: the segment names (in dict order) whose host set
contains h. -/
def segmentsReaching (sh : SegHosts) (h : String) : List String :=
  (sh.filter (fun p => p.2.contains h)).map Prod.fst

/-- has_pci: some reaching segment has type pci (segment_types.get(seg, "")
== "pci"). -/
def hasPci (sh : SegHosts) (st : SegTypes) (h : String) : Bool :=
  (segmentsReaching sh h).any (fun seg => dictGetD seg st "" == "pci")

/-- has_non_pci: some reaching segment has type non_pci. -/
def hasNonPci (sh : SegHosts) (st : SegTypes) (h : String) : Bool :=
  (segmentsReaching sh h).any (fun seg => dictGetD seg st "" == "non_pci")

/-- The per-host severity tier the script derives: the colour chosen for
every reachable cell of the row of the host and for its concern lines. -/
inductive Tier where
  | critical
  | elevated
  | normal
deriving DecidableEq

/-- The tier decision of lines 90-95 (and identically 110-111, 160-165):
critical when both a pci and a non_pci segment reach the host, else
elevated when more than one segment reaches it, else normal. -/
def hostTier (sh : SegHosts) (st : SegTypes) (h : String) : Tier :=
  if hasPci sh st h && hasNonPci sh st h then Tier.critical
  else if 1 < (segmentsReaching sh h).length then Tier.elevated
  else Tier.normal

/-! ### Renderers -/

/-- strip_ansi: remove every ANSI colour escape (regex \x1b\[[0-9;]*m). -/
def dropCodeRun : List Char → List Char
  | [] => []
  | c :: rest => if c.isDigit || c == ';' then dropCodeRun rest else c :: rest

theorem dropCodeRun_length (l : List Char) : (dropCodeRun l).length ≤ l.length := by
  induction l with
  | nil => simp [dropCodeRun]
  | cons c rest ih =>
    simp only [dropCodeRun]
    split
    · exact Nat.le_succ_of_le ih
    · simp

/-- strip_ansi over characters: non-overlapping left-to-right removal of
escape sequences matching \x1b\[[0-9;]*m. -/
def stripAnsiChars : List Char → List Char
  | [] => []
  | [c] => [c]
  | c :: d :: rest =>
    if c == '\x1b' && d == '[' then
      if (dropCodeRun rest).head? = some 'm' then
        stripAnsiChars (dropCodeRun rest).tail
      else c :: stripAnsiChars (d :: rest)
    else c :: stripAnsiChars (d :: rest)
termination_by l => l.length
decreasing_by
  · have h1 : (dropCodeRun rest).tail.length = (dropCodeRun rest).length - 1 :=
      List.length_tail _
    have h2 := dropCodeRun_length rest
    simp only [List.length_cons]
    omega
  · simp only [List.length_cons]; omega
  · simp only [List.length_cons]; omega

/-- pad_cell: pad to the target width counting only visible characters. -/
def pad_cell (s : String) (width : Nat) : String :=
  s ++ String.mk (List.replicate (width - (stripAnsiChars s.data).length) ' ')

/-- Python ", ".join and friends. -/
def joinSep (sep : String) : List String → String
  | [] => ""
  | [x] => x
  | x :: y :: xs => x ++ sep ++ joinSep sep (y :: xs)

/-- Python "-" * n and " " * n. -/
def strRepeat (c : Char) (n : Nat) : String :=
  String.mk (List.replicate n c)

/-- The text-matrix cell for (host, segment), lines 88-98: a colourised X
when the set of the segment contains the host (colour picked from the
tier of the host), else "-". -/
def textCell (sh : SegHosts) (st : SegTypes) (h segment : String) : String :=
  if (dictGetD segment sh []).contains h then
    if hasPci sh st h && hasNonPci sh st h then RED ++ "X" ++ RESET
    else if 1 < (segmentsReaching sh h).length then YELLOW ++ "X" ++ RESET
    else GREEN ++ "X" ++ RESET
  else "-"

/-- The HTML-matrix cell for (host, segment), lines 158-168. -/
def htmlCell (sh : SegHosts) (st : SegTypes) (h segment : String) : String :=
  if (dictGetD segment sh []).contains h then
    let colour :=
      if hasPci sh st h && hasNonPci sh st h then "#ffcccc"
      else if 1 < (segmentsReaching sh h).length then "#ffff99"
      else "#ccffcc"
    "<td style=\x27background:" ++ colour ++ ";text-align:center;\x27>X</td>"
  else "<td style=\x27text-align:center;\x27>-</td>"

/-- Whether the text renderer marks the (host, segment) cell reachable. -/
def textCellIsX (sh : SegHosts) (st : SegTypes) (h segment : String) : Bool :=
  !(textCell sh st h segment == "-")

/-- Whether the HTML renderer marks the (host, segment) cell reachable. -/
def htmlCellIsX (sh : SegHosts) (st : SegTypes) (h segment : String) : Bool :=
  !(htmlCell sh st h segment == "<td style=\x27text-align:center;\x27>-</td>")

/-- One iteration of the areas-of-concern loop (lines 105-120): the
(colour, message) entries appended for host h. -/
def concernsForHost (sh : SegHosts) (st : SegTypes) (h : String) :
    List (String × String) :=
  let sr := segmentsReaching sh h
  let multi := 1 < sr.length
  let pciAndNonPci := hasPci sh st h && hasNonPci sh st h
  (if multi then
     [("yellow",
       "- Host " ++ h ++ " is reachable from multiple segments: " ++
         joinSep ", " sr)]
   else []) ++
  (if pciAndNonPci then
     [("red",
       "[!] Host " ++ h ++ " is reachable from both PCI and non-PCI segments: " ++
         joinSep ", " sr)]
   else [])

/-- areas_of_concern accumulated over all hosts in row order. -/
def areasOfConcern (sh : SegHosts) (st : SegTypes) (hosts : List String) :
    List (String × String) :=
  hosts.foldl (fun acc h => acc ++ concernsForHost sh st h) []

/-- The text-matrix header line (line 80). -/
def textHeader (ordered : List String) (hcw scw : Nat) : String :=
  pad_cell "Host" hcw ++ " " ++
    joinSep " " (ordered.map (fun seg => pad_cell seg scw))

/-- One printed row of the text matrix (lines 83-99). -/
def textRow (sh : SegHosts) (st : SegTypes) (ordered : List String)
    (hcw scw : Nat) (h : String) : String :=
  pad_cell h hcw ++ " " ++
    String.join (ordered.map (fun seg => pad_cell (textCell sh st h seg) scw))

/-- One header cell of the HTML matrix (lines 144-150). -/
def htmlHeaderCell (pci nonPci : List String) (seg : String) : String :=
  if pci.contains seg then
    "<th style=\x27background:#b3d1ff;color:#003366;\x27>" ++ seg ++ "</th>"
  else if nonPci.contains seg then
    "<th style=\x27background:#fff2cc;color:#7f6000;\x27>" ++ seg ++ "</th>"
  else "<th>" ++ seg ++ "</th>"

/-- The complete HTML document written to segmentation_matrix.html
(lines 132-186), as one string. -/
def htmlDoc (sh : SegHosts) (st : SegTypes) (allH : List String) : String :=
  let pci := pciSegments st
  let nonPci := nonPciSegments st
  let ordered := orderedSegments st
  let areas := areasOfConcern sh st allH
  "<html><body>\n" ++
  "<h2>Segment Classification</h2>\n" ++
  "<ul>" ++
  "<li><b style=\x27color:green;\x27>PCI Segments:</b> " ++
    (if pci.isEmpty then "None" else joinSep ", " pci) ++ "</li>" ++
  "<li><b style=\x27color:orange;\x27>NON PCI Segments:</b> " ++
    (if nonPci.isEmpty then "None" else joinSep ", " nonPci) ++ "</li>" ++
  "</ul>" ++
  "<h2>Communication Matrix</h2>\n" ++
  "<table border=\x271\x27 cellpadding=\x275\x27 style=\x27border-collapse:collapse;\x27>\n" ++
  "<tr><th>Host</th>" ++
  String.join (ordered.map (htmlHeaderCell pci nonPci)) ++
  "</tr>\n" ++
  String.join (allH.map (fun h =>
    "<tr><td>" ++ h ++ "</td>" ++
      String.join (ordered.map (fun seg => htmlCell sh st h seg)) ++
      "</tr>\n")) ++
  "</table>\n" ++
  "<p><b>Key:</b><br>" ++
  "<span style=\x27background:#ccffcc;\x27>Green</span>: Host is reachable from this segment only.<br>" ++
  "<span style=\x27background:#ffff99;\x27>Yellow</span>: Host is reachable from multiple segments.<br>" ++
  "<span style=\x27background:#ffcccc;\x27>Red</span>: Host is reachable from both PCI and non-PCI segments.<br>" ++
  "</p>\n" ++
  "<h2>Areas of Concern</h2>\n" ++
  (if areas.isEmpty then
    "<div>No areas of concern detected based on current matrix.</div>\n"
   else
    String.join (areas.map (fun cm =>
      if cm.1 == "red" then
        "<div style=\x27color:#b20000;font-weight:bold;\x27>" ++ cm.2 ++ "</div>\n"
      else if cm.1 == "yellow" then
        "<div style=\x27color:#b59b00;\x27>" ++ cm.2 ++ "</div>\n"
      else ""))) ++
  "</body></html>\n"

/-- Everything the script emits on a successful run: the argument of each
print call in order, and the HTML file contents. -/
structure ScriptOutput where
  stdout : List String
  html : String
deriving DecidableEq

/-- The printed lines of a successful run (lines 66-129 and 188). -/
def stdoutLines (sh : SegHosts) (st : SegTypes) (allH : List String)
    (hcw scw : Nat) : List String :=
  let pci := pciSegments st
  let nonPci := nonPciSegments st
  let ordered := orderedSegments st
  let areas := areasOfConcern sh st allH
  let header := textHeader ordered hcw scw
  [BOLD ++ "Segment Classification:" ++ RESET,
   GREEN ++ "PCI Segments:" ++ RESET ++ " " ++
     (if pci.isEmpty then "None" else joinSep ", " pci),
   YELLOW ++ "NON PCI Segments:" ++ RESET ++ " " ++
     (if nonPci.isEmpty then "None" else joinSep ", " nonPci),
   strRepeat '-' (hcw + scw * sh.length),
   BOLD ++ "Key:" ++ RESET,
   GREEN ++ "X" ++ RESET ++ " = Host is reachable from this segment (at least one open port found)",
   YELLOW ++ "X" ++ RESET ++ " = Host is reachable from multiple segments (potential segmentation issue)",
   RED ++ "X" ++ RESET ++ " = Host is reachable from both PCI and non-PCI segments (critical concern)",
   strRepeat '-' (hcw + scw * sh.length),
   BOLD ++ "Communication Matrix:" ++ RESET ++ " (see key above)\n",
   header,
   strRepeat '-' header.data.length] ++
  allH.map (textRow sh st ordered hcw scw) ++
  ["\n" ++ BOLD ++ "Areas of Concern:" ++ RESET] ++
  areas.map (fun cm =>
    if cm.1 == "yellow" then YELLOW ++ cm.2 ++ RESET else RED ++ cm.2 ++ RESET) ++
  (if areas.isEmpty then
    ["No areas of concern detected based on current matrix."]
   else []) ++
  ["\n" ++ BOLD ++ "Client Breakdown:" ++ RESET,
   "This matrix shows which network segments can communicate with which hosts. Each \x27X\x27 means that the host was reachable from that segment during testing.",
   YELLOW ++ "Yellow X" ++ RESET ++ ": Indicates a host is reachable from more than one segment, which may suggest insufficient network segmentation.",
   RED ++ "Red X" ++ RESET ++ ": Indicates a host is reachable from both PCI and non-PCI segments, which is a critical concern for compliance and security.",
   "We recommend reviewing any yellow or red entries to ensure your segmentation controls meet your policy and compliance requirements.",
   "\n" ++ CYAN ++ "HTML report generated: segmentation_matrix.html" ++ RESET]

/-- The whole script as a function of the discovered file list: none models
an unhandled exception aborting the run (IndexError in the loader, or
ValueError from max() over an empty sequence in the width computation). -/
def runScript (files : List InputFile) : Option ScriptOutput :=
  match loadFiles files with
  | none => none
  | some (sh, st) =>
    let allH := allHostsOf sh
    match hostColWidth allH with
    | none => none
    | some hcw =>
      match segColWidth sh with
      | none => none
      | some scw =>
        some { stdout := stdoutLines sh st allH hcw scw,
               html := htmlDoc sh st allH }

/-! ### Helper lemmas -/

theorem foldl_loadStep_none (files : List InputFile) :
    files.foldl loadStep none = none := by
  induction files with
  | nil => rfl
  | cons f fs ih => simpa [loadStep] using ih

theorem find?_map_update {A : Type} (k : String) (v : A)
    (ps : List (String × A)) :
    (ps.map (fun q => if q.1 == k then (k, v) else q)).find?
        (fun q => q.1 == k) =
      if ps.any (fun q => q.1 == k) then some (k, v) else none := by
  induction ps with
  | nil => simp
  | cons p ps ih =>
    by_cases hp : (p.1 == k) = true
    · simp only [List.map_cons, hp, if_true, List.any_cons, Bool.true_or]
      rw [List.find?_cons_of_pos]
      simp
    · have hb : (p.1 == k) = false := by simpa using hp
      simp only [List.map_cons, List.any_cons]
      rw [if_neg hp]
      have hskip : List.find? (fun q => q.1 == k)
          (p :: ps.map (fun q => if q.1 == k then (k, v) else q)) =
            List.find? (fun q => q.1 == k)
              (ps.map (fun q => if q.1 == k then (k, v) else q)) :=
        List.find?_cons_of_neg _ hp
      rw [hskip, ih]
      simp only [hb, Bool.false_or]

theorem find?_append_of_none {A : Type} (p : A → Bool) (l1 l2 : List A)
    (h : l1.find? p = none) : (l1 ++ l2).find? p = l2.find? p := by
  induction l1 with
  | nil => simp
  | cons a l1 ih =>
    by_cases ha : p a = true
    · rw [List.find?_cons_of_pos _ ha] at h; exact absurd h (by simp)
    · rw [List.find?_cons_of_neg _ ha] at h
      rw [List.cons_append, List.find?_cons_of_neg _ ha]
      exact ih h

theorem dictGet_dictInsert {A : Type} (k : String) (v : A)
    (d : List (String × A)) : dictGet k (dictInsert k v d) = some v := by
  unfold dictInsert dictGet
  by_cases hd : (d.any fun p => p.1 == k) = true
  · rw [if_pos hd, find?_map_update, if_pos hd]
    rfl
  · rw [if_neg hd]
    have hn : d.find? (fun p => p.1 == k) = none := by
      rw [List.find?_eq_none]
      intro x hx
      simp only [List.any_eq_true] at hd
      intro hxk
      exact hd ⟨x, hx, hxk⟩
    rw [find?_append_of_none _ _ _ hn]
    rw [List.find?_cons_of_pos]
    · rfl
    · simp

/-! ### Claim C2: duplicate derived segment names -/

/-- Claim C2 counterexample: the files "PCI - A.gnmap" (reachable host
10.0.0.1) and "NON PCI - A.gnmap" (reachable host 10.0.0.2) both derive the
segment name "A".  After loading, the per-segment host-set map holds ONLY
the host set of the later file: the earlier host 10.0.0.1 is gone, so the host
set IS overwritten, contrary to the claim. -/
theorem duplicate_segment_name_counterexample :
    loadFiles
        [{ name := "PCI - A.gnmap",
           lines := ["Host: 10.0.0.1 () Ports: 22/open/tcp//ssh///"] },
         { name := "NON PCI - A.gnmap",
           lines := ["Host: 10.0.0.2 () Ports: 22/open/tcp//ssh///"] }] =
      some ([("A", ["10.0.0.2"])], [("A", "non_pci")]) ∧
    dictGet "A" ([("A", ["10.0.0.2"])] : SegHosts) = some ["10.0.0.2"] ∧
    ("10.0.0.1" ∈ (["10.0.0.2"] : List String) → False) := by
  decide

/-- Claim C2 (amended): if two input files yield the same derived segment
name, the later file silently overwrites the entry of the earlier one in BOTH
maps: the segment-type map and the per-segment host-set map are separate
dicts, but they are keyed by the same derived segment name, and each ends
up holding the value from the last file. -/
theorem duplicate_segment_name_overwrites_both (files : List InputFile)
    (f : InputFile) (sh : SegHosts) (st : SegTypes)
    (hload : loadFiles (files ++ [f]) = some (sh, st)) :
    ∃ hosts, parseFileHosts f.lines = some hosts ∧
      dictGet (parse_segment f.name).2 sh = some hosts ∧
      dictGet (parse_segment f.name).2 st = some (parse_segment f.name).1 := by
  rw [loadFiles, List.foldl_append] at hload
  cases hprev : files.foldl loadStep (some ([], [])) with
  | none =>
    rw [hprev] at hload
    simp [loadStep] at hload
  | some acc =>
    rw [hprev] at hload
    obtain ⟨sh0, st0⟩ := acc
    simp only [List.foldl_cons, List.foldl_nil, loadStep] at hload
    cases hparse : parseFileHosts f.lines with
    | none => rw [hparse] at hload; simp at hload
    | some hosts =>
      rw [hparse] at hload
      simp only [Option.some.injEq, Prod.mk.injEq] at hload
      obtain ⟨hsh, hst⟩ := hload
      refine ⟨hosts, rfl, ?_, ?_⟩
      · rw [← hsh]; exact dictGet_dictInsert _ _ _
      · rw [← hst]; exact dictGet_dictInsert _ _ _

/-- Claim C2 amended-theorem witness at a concrete input: loading
"PCI - A.gnmap" then "NON PCI - A.gnmap" leaves segment "A" mapped to the
later host set and the later type. -/
theorem duplicate_segment_name_overwrites_both_witness :
    ∃ hosts, parseFileHosts ["Host: 10.0.0.2 () Ports: 22/open/tcp//ssh///"] =
        some hosts ∧
      dictGet (parse_segment "NON PCI - A.gnmap").2
          ([("A", ["10.0.0.2"])] : SegHosts) = some hosts ∧
      dictGet (parse_segment "NON PCI - A.gnmap").2
          ([("A", "non_pci")] : SegTypes) =
        some (parse_segment "NON PCI - A.gnmap").1 :=
  duplicate_segment_name_overwrites_both
    [{ name := "PCI - A.gnmap",
       lines := ["Host: 10.0.0.1 () Ports: 22/open/tcp//ssh///"] }]
    { name := "NON PCI - A.gnmap",
      lines := ["Host: 10.0.0.2 () Ports: 22/open/tcp//ssh///"] }
    [("A", ["10.0.0.2"])] [("A", "non_pci")] (by decide)

/-! ### Claim C3: empty working directory -/

/-- Claim C3 counterexample: with no matching input files the run does NOT
complete; the embedding of the whole script returns none, modelling the
unhandled ValueError raised at the column-width computation
(max() over the empty host sequence at line 62). -/
theorem empty_directory_counterexample : runScript [] = none := by decide

/-- Claim C3 (amended): with no matching input files, loading succeeds with
empty maps and an empty host list, but the run then aborts with an
unhandled error computing the host-column width (max() of an empty
sequence), before printing anything and before the HTML file is written. -/
theorem empty_directory_aborts :
    loadFiles [] = some ([], []) ∧
    allHostsOf [] = [] ∧
    hostColWidth (allHostsOf []) = none ∧
    runScript [] = none := by
  decide

/-! ### Claim C4: two-file critical scenario -/

/-- Claim C4 counterexample: for the two-file scenario
(PCI - DMZ / NON PCI - Corp, both reaching 10.0.0.5) the matrix does have
one row and two columns with both cells reachable and the host critical,
but the areas-of-concern list has TWO entries for the host, not exactly
one: the code appends a "multiple segments" line and a "both PCI and
non-PCI" line independently. -/
theorem two_file_scenario_counterexample :
    loadFiles
        [{ name := "PCI - DMZ.gnmap",
           lines := ["Host: 10.0.0.5 () Ports: 80/open/tcp//http///"] },
         { name := "NON PCI - Corp.gnmap",
           lines := ["Host: 10.0.0.5 () Ports: 80/open/tcp//http///"] }] =
      some ([("DMZ", ["10.0.0.5"]), ("Corp", ["10.0.0.5"])],
            [("DMZ", "pci"), ("Corp", "non_pci")]) ∧
    allHostsOf [("DMZ", ["10.0.0.5"]), ("Corp", ["10.0.0.5"])] = ["10.0.0.5"] ∧
    orderedSegments [("DMZ", "pci"), ("Corp", "non_pci")] = ["DMZ", "Corp"] ∧
    ¬ (areasOfConcern [("DMZ", ["10.0.0.5"]), ("Corp", ["10.0.0.5"])]
        [("DMZ", "pci"), ("Corp", "non_pci")] ["10.0.0.5"]).length = 1 := by
  decide

/-- Claim C4 (amended): in the two-file scenario the output matrix has one
row (10.0.0.5) and two columns (DMZ, Corp), both cells are marked
reachable in the text and HTML renderers, the tier of the host is critical, and
exactly TWO concern lines are emitted for the host: a yellow
multiple-segments line and a red PCI/non-PCI line, in that order. -/
theorem two_file_scenario :
    loadFiles
        [{ name := "PCI - DMZ.gnmap",
           lines := ["Host: 10.0.0.5 () Ports: 80/open/tcp//http///"] },
         { name := "NON PCI - Corp.gnmap",
           lines := ["Host: 10.0.0.5 () Ports: 80/open/tcp//http///"] }] =
      some ([("DMZ", ["10.0.0.5"]), ("Corp", ["10.0.0.5"])],
            [("DMZ", "pci"), ("Corp", "non_pci")]) ∧
    allHostsOf [("DMZ", ["10.0.0.5"]), ("Corp", ["10.0.0.5"])] = ["10.0.0.5"] ∧
    orderedSegments [("DMZ", "pci"), ("Corp", "non_pci")] = ["DMZ", "Corp"] ∧
    textCellIsX [("DMZ", ["10.0.0.5"]), ("Corp", ["10.0.0.5"])]
      [("DMZ", "pci"), ("Corp", "non_pci")] "10.0.0.5" "DMZ" = true ∧
    textCellIsX [("DMZ", ["10.0.0.5"]), ("Corp", ["10.0.0.5"])]
      [("DMZ", "pci"), ("Corp", "non_pci")] "10.0.0.5" "Corp" = true ∧
    htmlCellIsX [("DMZ", ["10.0.0.5"]), ("Corp", ["10.0.0.5"])]
      [("DMZ", "pci"), ("Corp", "non_pci")] "10.0.0.5" "DMZ" = true ∧
    htmlCellIsX [("DMZ", ["10.0.0.5"]), ("Corp", ["10.0.0.5"])]
      [("DMZ", "pci"), ("Corp", "non_pci")] "10.0.0.5" "Corp" = true ∧
    hostTier [("DMZ", ["10.0.0.5"]), ("Corp", ["10.0.0.5"])]
      [("DMZ", "pci"), ("Corp", "non_pci")] "10.0.0.5" = Tier.critical ∧
    areasOfConcern [("DMZ", ["10.0.0.5"]), ("Corp", ["10.0.0.5"])]
        [("DMZ", "pci"), ("Corp", "non_pci")] ["10.0.0.5"] =
      [("yellow",
        "- Host 10.0.0.5 is reachable from multiple segments: DMZ, Corp"),
       ("red",
        "[!] Host 10.0.0.5 is reachable from both PCI and non-PCI segments: DMZ, Corp")] := by
  decide

/-! ### Claim C10: determinism -/

/-- Claim C10: the program is deterministic given its inputs.  The whole
script after file discovery is embedded as the pure function runScript of
the ordered list of discovered files (names and contents); every printed
line and the full HTML document are computed from that list alone, so two
runs over the same discovered list produce identical standard output and
identical HTML contents. -/
theorem run_deterministic (files1 files2 : List InputFile)
    (h : files1 = files2) :
    runScript files1 = runScript files2 := by
  rw [h]

/-- Claim C10 witness: two runs over the same concrete one-file list give
the same output. -/
theorem run_deterministic_witness :
    runScript [{ name := "PCI - A.gnmap", lines := [] }] =
      runScript [{ name := "PCI - A.gnmap", lines := [] }] :=
  run_deterministic [{ name := "PCI - A.gnmap", lines := [] }]
    [{ name := "PCI - A.gnmap", lines := [] }] rfl

/-! ### Claim C1: per-host tier -/

/-- Claim C1: for every host in the aggregated union, the derived tier is
critical iff some reaching segment has type pci and some reaching segment
has type non_pci; elevated iff not critical and more than one segment
reaches the host; normal otherwise; and in particular any host reached by
at least one pci and at least one non_pci segment is critical regardless
of how many segments reach it in total. -/
theorem tier_classification (files : List InputFile) (sh : SegHosts)
    (st : SegTypes) (h : String)
    (hload : loadFiles files = some (sh, st)) (hmem : h ∈ allHostsOf sh) :
    (hostTier sh st h = Tier.critical ↔
      ((∃ s ∈ segmentsReaching sh h, dictGetD s st "" = "pci") ∧
       (∃ s ∈ segmentsReaching sh h, dictGetD s st "" = "non_pci"))) ∧
    (hostTier sh st h = Tier.elevated ↔
      (¬ ((∃ s ∈ segmentsReaching sh h, dictGetD s st "" = "pci") ∧
          (∃ s ∈ segmentsReaching sh h, dictGetD s st "" = "non_pci")) ∧
       1 < (segmentsReaching sh h).length)) ∧
    (hostTier sh st h = Tier.normal ↔
      (¬ ((∃ s ∈ segmentsReaching sh h, dictGetD s st "" = "pci") ∧
          (∃ s ∈ segmentsReaching sh h, dictGetD s st "" = "non_pci")) ∧
       ¬ 1 < (segmentsReaching sh h).length)) ∧
    ((∃ s ∈ segmentsReaching sh h, dictGetD s st "" = "pci") →
     (∃ s ∈ segmentsReaching sh h, dictGetD s st "" = "non_pci") →
     hostTier sh st h = Tier.critical) := by
  have hp : (∃ s ∈ segmentsReaching sh h, dictGetD s st "" = "pci") ↔
      hasPci sh st h = true := by
    simp [hasPci, List.any_eq_true]
  have hnp : (∃ s ∈ segmentsReaching sh h, dictGetD s st "" = "non_pci") ↔
      hasNonPci sh st h = true := by
    simp [hasNonPci, List.any_eq_true]
  rw [hp, hnp]
  unfold hostTier
  cases hcp : hasPci sh st h <;> cases hcnp : hasNonPci sh st h <;>
    by_cases hlen : 1 < (segmentsReaching sh h).length <;>
      simp [hlen]

/-- Claim C1 witness: in the concrete one-pci-one-non-pci state the tier of
10.0.0.5 is critical, and the other two tier equations hold vacuously or
by the length test. -/
theorem tier_classification_witness :
    (hostTier [("DMZ", ["10.0.0.5"]), ("Corp", ["10.0.0.5"])]
        [("DMZ", "pci"), ("Corp", "non_pci")] "10.0.0.5" = Tier.critical ↔
      ((∃ s ∈ segmentsReaching
            [("DMZ", ["10.0.0.5"]), ("Corp", ["10.0.0.5"])] "10.0.0.5",
          dictGetD s [("DMZ", "pci"), ("Corp", "non_pci")] "" = "pci") ∧
       (∃ s ∈ segmentsReaching
            [("DMZ", ["10.0.0.5"]), ("Corp", ["10.0.0.5"])] "10.0.0.5",
          dictGetD s [("DMZ", "pci"), ("Corp", "non_pci")] "" = "non_pci"))) ∧
    (hostTier [("DMZ", ["10.0.0.5"]), ("Corp", ["10.0.0.5"])]
        [("DMZ", "pci"), ("Corp", "non_pci")] "10.0.0.5" = Tier.elevated ↔
      (¬ ((∃ s ∈ segmentsReaching
              [("DMZ", ["10.0.0.5"]), ("Corp", ["10.0.0.5"])] "10.0.0.5",
            dictGetD s [("DMZ", "pci"), ("Corp", "non_pci")] "" = "pci") ∧
          (∃ s ∈ segmentsReaching
              [("DMZ", ["10.0.0.5"]), ("Corp", ["10.0.0.5"])] "10.0.0.5",
            dictGetD s [("DMZ", "pci"), ("Corp", "non_pci")] "" = "non_pci")) ∧
       1 < (segmentsReaching
          [("DMZ", ["10.0.0.5"]), ("Corp", ["10.0.0.5"])] "10.0.0.5").length)) ∧
    (hostTier [("DMZ", ["10.0.0.5"]), ("Corp", ["10.0.0.5"])]
        [("DMZ", "pci"), ("Corp", "non_pci")] "10.0.0.5" = Tier.normal ↔
      (¬ ((∃ s ∈ segmentsReaching
              [("DMZ", ["10.0.0.5"]), ("Corp", ["10.0.0.5"])] "10.0.0.5",
            dictGetD s [("DMZ", "pci"), ("Corp", "non_pci")] "" = "pci") ∧
          (∃ s ∈ segmentsReaching
              [("DMZ", ["10.0.0.5"]), ("Corp", ["10.0.0.5"])] "10.0.0.5",
            dictGetD s [("DMZ", "pci"), ("Corp", "non_pci")] "" = "non_pci")) ∧
       ¬ 1 < (segmentsReaching
          [("DMZ", ["10.0.0.5"]), ("Corp", ["10.0.0.5"])] "10.0.0.5").length)) ∧
    ((∃ s ∈ segmentsReaching
          [("DMZ", ["10.0.0.5"]), ("Corp", ["10.0.0.5"])] "10.0.0.5",
        dictGetD s [("DMZ", "pci"), ("Corp", "non_pci")] "" = "pci") →
     (∃ s ∈ segmentsReaching
          [("DMZ", ["10.0.0.5"]), ("Corp", ["10.0.0.5"])] "10.0.0.5",
        dictGetD s [("DMZ", "pci"), ("Corp", "non_pci")] "" = "non_pci") →
     hostTier [("DMZ", ["10.0.0.5"]), ("Corp", ["10.0.0.5"])]
        [("DMZ", "pci"), ("Corp", "non_pci")] "10.0.0.5" = Tier.critical) :=
  tier_classification
    [{ name := "PCI - DMZ.gnmap",
       lines := ["Host: 10.0.0.5 () Ports: 80/open/tcp//http///"] },
     { name := "NON PCI - Corp.gnmap",
       lines := ["Host: 10.0.0.5 () Ports: 80/open/tcp//http///"] }]
    [("DMZ", ["10.0.0.5"]), ("Corp", ["10.0.0.5"])]
    [("DMZ", "pci"), ("Corp", "non_pci")] "10.0.0.5" (by decide) (by decide)

/-! ### Claim C5: text and HTML cells agree -/

/-- Claim C5: for every loaded input set and every (host, segment) pair,
the text renderer marks the cell with an X exactly when the HTML renderer
does: both test membership of the host in the same per-segment host set. -/
theorem text_html_cells_agree (files : List InputFile) (sh : SegHosts)
    (st : SegTypes) (h segment : String)
    (hload : loadFiles files = some (sh, st)) :
    textCellIsX sh st h segment = htmlCellIsX sh st h segment := by
  unfold textCellIsX htmlCellIsX textCell htmlCell
  by_cases hc : (dictGetD segment sh []).contains h = true
  · simp only [hc, if_true]
    by_cases h1 : (hasPci sh st h && hasNonPci sh st h) = true
    · simp only [h1, if_true]; decide
    · by_cases h2 : 1 < (segmentsReaching sh h).length
      · simp only [h1, if_false, h2, if_true]; decide
      · simp only [h1, if_false, h2]; decide
  · simp only [Bool.not_eq_true] at hc
    simp only [hc, Bool.false_eq_true, if_false]
    decide

/-- Claim C5 witness: cell agreement instantiated in a concrete loaded
state. -/
theorem text_html_cells_agree_witness :
    textCellIsX [("Lab", ["10.1.1.1"])] [("Lab", "unknown")] "10.1.1.1" "Lab" =
      htmlCellIsX [("Lab", ["10.1.1.1"])] [("Lab", "unknown")] "10.1.1.1" "Lab" :=
  text_html_cells_agree
    [{ name := "Lab.gnmap",
       lines := ["Host: 10.1.1.1 () Ports: 443/open/tcp//https///"] }]
    [("Lab", ["10.1.1.1"])] [("Lab", "unknown")] "10.1.1.1" "Lab" (by decide)

/-! ### Claim C6: Host: line parsing -/

/-- Claim C6: a line is treated as a host record exactly when it starts
with the literal token "Host:"; from such a line the host address is the
second whitespace-separated token, and the host is added to the set of
the segment iff the raw line also contains both substrings "Ports:" and "open"; a
line that does not start with "Host:" adds nothing, and a Host: line
without the "open" token never adds a host. -/
theorem host_line_parsing (line ip : String) :
    (parseLine line = some (some ip) ↔
      (pyStartswith line "Host:" = true ∧ (pySplit line)[1]? = some ip ∧
       pyContains line "Ports:" = true ∧ pyContains line "open" = true)) ∧
    (pyStartswith line "Host:" = false → parseLine line = some none) ∧
    (pyStartswith line "Host:" = true → pyContains line "open" = false →
      ∀ ip2 : String, ¬ parseLine line = some (some ip2)) := by
  refine ⟨?_, ?_, ?_⟩
  · by_cases hs : pyStartswith line "Host:" = true
    · cases htok : (pySplit line)[1]? with
      | none =>
        have hred : parseLine line = none := by
          unfold parseLine; rw [if_pos hs, htok]
        rw [hred]
        simp [htok]
      | some ip0 =>
        have hred : parseLine line =
            if (pyContains line "Ports:" && pyContains line "open") = true
            then some (some ip0) else some none := by
          unfold parseLine; rw [if_pos hs, htok]
        rw [hred]
        by_cases hpo : (pyContains line "Ports:" && pyContains line "open") = true
        · rw [if_pos hpo]
          rw [Bool.and_eq_true] at hpo
          simp [hs, htok, hpo.1, hpo.2, eq_comm]
        · rw [if_neg hpo]
          rw [Bool.and_eq_true] at hpo
          constructor
          · intro hcl; simp at hcl
          · rintro ⟨_, _, hP, hO⟩; exact absurd ⟨hP, hO⟩ hpo
    · have hs2 : pyStartswith line "Host:" = false := by simpa using hs
      have hred : parseLine line = some none := by
        unfold parseLine; rw [if_neg hs]
      rw [hred]
      simp [hs2]
  · intro hs
    unfold parseLine
    simp [hs]
  · intro hs ho ip2
    unfold parseLine
    simp only [hs, if_true]
    cases htok : (pySplit line)[1]? with
    | none => simp
    | some ip0 => simp [ho]

/-- Claim C6 witness: a Host: line with an open port parses to its second
token; instantiated through the main theorem. -/
theorem host_line_parsing_witness :
    parseLine "Host: 10.0.0.9 () Ports: 25/open/tcp//smtp///" =
      some (some "10.0.0.9") :=
  (host_line_parsing "Host: 10.0.0.9 () Ports: 25/open/tcp//smtp///"
    "10.0.0.9").1.mpr (by refine ⟨by decide, by decide, by decide, by decide⟩)

/-! ### Claim C7: filename classification -/

/-- Claim C7: for every input filename, with base the extension-stripped
filename: if base starts case-insensitively with "pci -" the derived pair
is ("pci", base after 6 characters, trimmed); otherwise if it starts
case-insensitively with "non pci -" the pair is ("non_pci", base after 10
characters, trimmed); otherwise it is ("unknown", base). -/
theorem filename_classification (filename : String) :
    (isPrefixL (pyLower ("pci -").data) (pyLower (splitextBase filename.data)) = true →
      parse_segment filename =
        ("pci", String.mk (pyStripChars ((splitextBase filename.data).drop 6)))) ∧
    (isPrefixL (pyLower ("pci -").data) (pyLower (splitextBase filename.data)) = false →
     isPrefixL (pyLower ("non pci -").data) (pyLower (splitextBase filename.data)) = true →
      parse_segment filename =
        ("non_pci", String.mk (pyStripChars ((splitextBase filename.data).drop 10)))) ∧
    (isPrefixL (pyLower ("pci -").data) (pyLower (splitextBase filename.data)) = false →
     isPrefixL (pyLower ("non pci -").data) (pyLower (splitextBase filename.data)) = false →
      parse_segment filename = ("unknown", String.mk (splitextBase filename.data))) := by
  have e1 : pyLower ("pci -").data = ("pci -").data := by decide
  have e2 : pyLower ("non pci -").data = ("non pci -").data := by decide
  rw [e1, e2]
  unfold parse_segment
  refine ⟨?_, ?_, ?_⟩
  · intro h1; simp [h1]
  · intro h1 h2; simp [h1, h2]
  · intro h1 h2; simp [h1, h2]

/-- Claim C7 witness: the three prefix forms at concrete filenames, via the
main theorem. -/
theorem filename_classification_witness :
    parse_segment "pCi - Cardholder.gnmap" = ("pci", "Cardholder") := by
  have h := (filename_classification "pCi - Cardholder.gnmap").1 (by decide)
  rw [h]
  decide

/-! ### Claim C9: malformed Host: lines -/

theorem foldl_parseFileStep_none (lines : List String) :
    lines.foldl parseFileStep none = none := by
  induction lines with
  | nil => rfl
  | cons l ls ih => simpa [parseFileStep] using ih

theorem parseLine_crash (line : String)
    (hs : pyStartswith line "Host:" = true)
    (htok : (pySplit line).length < 2) : parseLine line = none := by
  have h1 : (pySplit line)[1]? = none := List.getElem?_eq_none (by omega)
  unfold parseLine
  rw [if_pos hs, h1]

theorem foldl_parseFileStep_none_of_mem (line : String)
    (hcrash : parseLine line = none) :
    ∀ (lines : List String), line ∈ lines →
      ∀ acc : Option (List String), lines.foldl parseFileStep acc = none := by
  intro lines
  induction lines with
  | nil => intro hmem; cases hmem
  | cons l ls ih =>
    intro hmem acc
    rw [List.foldl_cons]
    rcases List.mem_cons.mp hmem with heq | hmem2
    · subst heq
      have hstep : parseFileStep acc line = none := by
        cases acc with
        | none => rfl
        | some hosts => unfold parseFileStep; rw [hcrash]
      rw [hstep]
      exact foldl_parseFileStep_none ls
    · exact ih hmem2 _

/-- loadStep applied to a live accumulator, as a plain equation. -/
theorem loadStep_some (sh : SegHosts) (st : SegTypes) (f : InputFile) :
    loadStep (some (sh, st)) f =
      match parseFileHosts f.lines with
      | none => none
      | some hosts =>
          some (dictInsert (parse_segment f.name).2 hosts sh,
                dictInsert (parse_segment f.name).2 (parse_segment f.name).1 st) :=
  rfl

theorem foldl_loadStep_none_of_mem (f : InputFile)
    (hbad : parseFileHosts f.lines = none) :
    ∀ (files : List InputFile), f ∈ files →
      ∀ acc : Option (SegHosts × SegTypes),
        files.foldl loadStep acc = none := by
  intro files
  induction files with
  | nil => intro hmem; cases hmem
  | cons g gs ih =>
    intro hmem acc
    rw [List.foldl_cons]
    rcases List.mem_cons.mp hmem with heq | hmem2
    · subst heq
      have hstep : loadStep acc f = none := by
        cases acc with
        | none => rfl
        | some p =>
          obtain ⟨sh0, st0⟩ := p
          rw [loadStep_some, hbad]
      rw [hstep]
      exact foldl_loadStep_none gs
    · exact ih hmem2 _

/-- Claim C9: any input file containing a line that starts with "Host:"
but has fewer than two whitespace-separated tokens makes the whole run
abort (the unguarded parts[1] extraction), producing no output at all. -/
theorem malformed_host_line_aborts (files : List InputFile) (f : InputFile)
    (line : String) (hf : f ∈ files) (hl : line ∈ f.lines)
    (hh : pyStartswith line "Host:" = true)
    (htok : (pySplit line).length < 2) :
    runScript files = none := by
  have hcrash : parseLine line = none := parseLine_crash line hh htok
  have hfile : parseFileHosts f.lines = none :=
    foldl_parseFileStep_none_of_mem line hcrash f.lines hl (some [])
  have hload : loadFiles files = none :=
    foldl_loadStep_none_of_mem f hfile files hf (some ([], []))
  unfold runScript
  rw [hload]

/-- Claim C9 witness: a file whose only line is the bare token "Host:"
aborts the run. -/
theorem malformed_host_line_aborts_witness :
    runScript [{ name := "PCI - Edge.gnmap", lines := ["Host:"] }] = none :=
  malformed_host_line_aborts
    [{ name := "PCI - Edge.gnmap", lines := ["Host:"] }]
    { name := "PCI - Edge.gnmap", lines := ["Host:"] } "Host:"
    (by decide) (by decide) (by decide) (by decide)

/-! ### Claim C8: column ordering -/

/-- Position of the first occurrence of a string in a list (length of the
list when absent). -/
def listIdx (x : String) : List String → Nat
  | [] => 0
  | y :: ys => if y == x then 0 else listIdx x ys + 1

theorem listIdx_lt_length (x : String) (l : List String) (h : x ∈ l) :
    listIdx x l < l.length := by
  induction l with
  | nil => cases h
  | cons y ys ih =>
    simp only [listIdx, List.length_cons]
    by_cases hy : (y == x) = true
    · rw [if_pos hy]; omega
    · rw [if_neg hy]
      have hx : x ∈ ys := by
        rcases List.mem_cons.mp h with heq | hmem
        · subst heq; simp at hy
        · exact hmem
      have := ih hx
      omega

theorem listIdx_append_left (x : String) (l1 l2 : List String) (h : x ∈ l1) :
    listIdx x (l1 ++ l2) = listIdx x l1 := by
  induction l1 with
  | nil => cases h
  | cons y ys ih =>
    simp only [List.cons_append, List.append_eq, listIdx]
    by_cases hy : (y == x) = true
    · rw [if_pos hy, if_pos hy]
    · rw [if_neg hy, if_neg hy]
      have hx : x ∈ ys := by
        rcases List.mem_cons.mp h with heq | hmem
        · subst heq; simp at hy
        · exact hmem
      rw [ih hx]

theorem listIdx_append_right (x : String) (l1 l2 : List String) (h : x ∉ l1) :
    listIdx x (l1 ++ l2) = l1.length + listIdx x l2 := by
  induction l1 with
  | nil => simp [listIdx]
  | cons y ys ih =>
    simp only [List.cons_append, List.append_eq, listIdx, List.length_cons]
    have hy : ¬ (y == x) = true := by
      intro hxy
      exact h (by rw [beq_iff_eq.mp hxy]; exact List.mem_cons_self x ys)
    rw [if_neg hy]
    have hx : x ∉ ys := fun hm => h (List.mem_cons_of_mem _ hm)
    rw [ih hx]
    omega

theorem mem_pciSegments (st : SegTypes) (s : String) :
    s ∈ pciSegments st ↔ (s, "pci") ∈ st := by
  unfold pciSegments
  simp only [List.mem_map, List.mem_filter]
  constructor
  · rintro ⟨⟨a, b⟩, ⟨hp, ht⟩, hfst⟩
    obtain rfl : a = s := hfst
    obtain rfl : b = "pci" := beq_iff_eq.mp ht
    exact hp
  · intro hp
    exact ⟨(s, "pci"), ⟨hp, by simp⟩, rfl⟩

theorem mem_nonPciSegments (st : SegTypes) (s : String) :
    s ∈ nonPciSegments st ↔ (s, "non_pci") ∈ st := by
  unfold nonPciSegments
  simp only [List.mem_map, List.mem_filter]
  constructor
  · rintro ⟨⟨a, b⟩, ⟨hp, ht⟩, hfst⟩
    obtain rfl : a = s := hfst
    obtain rfl : b = "non_pci" := beq_iff_eq.mp ht
    exact hp
  · intro hp
    exact ⟨(s, "non_pci"), ⟨hp, by simp⟩, rfl⟩

theorem mem_unknownSegments (st : SegTypes) (s : String) :
    s ∈ unknownSegments st ↔
      ∃ v, (s, v) ∈ st ∧ v ≠ "pci" ∧ v ≠ "non_pci" := by
  unfold unknownSegments
  simp only [List.mem_map, List.mem_filter]
  constructor
  · rintro ⟨⟨a, b⟩, ⟨hp, ht⟩, hfst⟩
    obtain rfl : a = s := hfst
    simp only [Bool.and_eq_true, Bool.not_eq_true', beq_eq_false_iff_ne] at ht
    exact ⟨b, hp, ht.1, ht.2⟩
  · rintro ⟨v, hp, h1, h2⟩
    exact ⟨(s, v), ⟨hp, by simp [h1, h2]⟩, rfl⟩

theorem keys_nodup_val_unique {A : Type} (d : List (String × A))
    (hnd : (d.map Prod.fst).Nodup) (k : String) (v1 v2 : A)
    (h1 : (k, v1) ∈ d) (h2 : (k, v2) ∈ d) : v1 = v2 := by
  induction d with
  | nil => cases h1
  | cons p ps ih =>
    simp only [List.map_cons, List.nodup_cons] at hnd
    rcases List.mem_cons.mp h1 with e1 | m1 <;>
      rcases List.mem_cons.mp h2 with e2 | m2
    · subst e1
      injection e2 with ek ev
      exact ev.symm
    · exfalso
      apply hnd.1
      rw [← e1]
      exact List.mem_map.mpr ⟨(k, v2), m2, rfl⟩
    · exfalso
      apply hnd.1
      rw [← e2]
      exact List.mem_map.mpr ⟨(k, v1), m1, rfl⟩
    · exact ih hnd.2 m1 m2

theorem keys_dictInsert {A : Type} (k : String) (v : A)
    (d : List (String × A)) :
    (dictInsert k v d).map Prod.fst =
      if d.any (fun p => p.1 == k) then d.map Prod.fst
      else d.map Prod.fst ++ [k] := by
  unfold dictInsert
  by_cases hd : (d.any fun p => p.1 == k) = true
  · rw [if_pos hd, if_pos hd, List.map_map]
    apply List.map_congr_left
    intro p hp
    simp only [Function.comp_apply]
    by_cases hpk : (p.1 == k) = true
    · rw [if_pos hpk]
      exact (beq_iff_eq.mp hpk).symm
    · rw [if_neg hpk]
  · rw [if_neg hd, if_neg hd, List.map_append]
    rfl

theorem keysNodup_dictInsert {A : Type} (k : String) (v : A)
    (d : List (String × A)) (h : (d.map Prod.fst).Nodup) :
    ((dictInsert k v d).map Prod.fst).Nodup := by
  rw [keys_dictInsert]
  by_cases hd : (d.any fun p => p.1 == k) = true
  · rw [if_pos hd]; exact h
  · rw [if_neg hd]
    have hk : k ∉ d.map Prod.fst := by
      intro hm
      apply hd
      rcases List.mem_map.mp hm with ⟨p, hp, hfst⟩
      exact List.any_eq_true.mpr ⟨p, hp, by simp [hfst]⟩
    refine List.Nodup.append h (List.nodup_singleton k) ?_
    intro a ha hb
    rw [List.mem_singleton] at hb
    subst hb
    exact hk ha

theorem loadFiles_keys_nodup (files : List InputFile) :
    ∀ (sh0 : SegHosts) (st0 : SegTypes) (sh : SegHosts) (st : SegTypes),
      (sh0.map Prod.fst).Nodup → (st0.map Prod.fst).Nodup →
      files.foldl loadStep (some (sh0, st0)) = some (sh, st) →
      (sh.map Prod.fst).Nodup ∧ (st.map Prod.fst).Nodup := by
  induction files with
  | nil =>
    intro sh0 st0 sh st h1 h2 h3
    simp only [List.foldl_nil, Option.some.injEq, Prod.mk.injEq] at h3
    obtain ⟨rfl, rfl⟩ := h3
    exact ⟨h1, h2⟩
  | cons f fs ih =>
    intro sh0 st0 sh st h1 h2 h3
    rw [List.foldl_cons, loadStep_some] at h3
    cases hp : parseFileHosts f.lines with
    | none =>
      rw [hp] at h3
      have hcontra : fs.foldl loadStep none = some (sh, st) := h3
      rw [foldl_loadStep_none] at hcontra
      cases hcontra
    | some hosts =>
      rw [hp] at h3
      have h4 : fs.foldl loadStep
          (some (dictInsert (parse_segment f.name).2 hosts sh0,
                 dictInsert (parse_segment f.name).2 (parse_segment f.name).1 st0)) =
          some (sh, st) := h3
      exact ih _ _ _ _ (keysNodup_dictInsert _ _ _ h1)
        (keysNodup_dictInsert _ _ _ h2) h4

/-- Claim C8: in the rendered matrices (whose column list is
ordered_segments, used by both the text header/row loops and the HTML
header/row loops) every pci-typed segment appears strictly before every
non_pci-typed segment, and every non_pci-typed segment strictly before
every unknown-typed segment. -/
theorem segment_columns_ordered (files : List InputFile) (sh : SegHosts)
    (st : SegTypes) (hload : loadFiles files = some (sh, st))
    (s t u : String) :
    (s ∈ pciSegments st → t ∈ nonPciSegments st →
      listIdx s (orderedSegments st) < listIdx t (orderedSegments st)) ∧
    (t ∈ nonPciSegments st → u ∈ unknownSegments st →
      listIdx t (orderedSegments st) < listIdx u (orderedSegments st)) := by
  have hnd : (st.map Prod.fst).Nodup :=
    (loadFiles_keys_nodup files [] [] sh st (by simp) (by simp) hload).2
  have hPN : ∀ x, x ∈ pciSegments st → x ∈ nonPciSegments st → False := by
    intro x hx1 hx2
    have e := keys_nodup_val_unique st hnd x "pci" "non_pci"
      ((mem_pciSegments st x).mp hx1) ((mem_nonPciSegments st x).mp hx2)
    simp at e
  have hPU : ∀ x, x ∈ pciSegments st → x ∈ unknownSegments st → False := by
    intro x hx1 hx2
    obtain ⟨v, hv, hv1, hv2⟩ := (mem_unknownSegments st x).mp hx2
    exact hv1 (keys_nodup_val_unique st hnd x v "pci" hv
      ((mem_pciSegments st x).mp hx1))
  have hNU : ∀ x, x ∈ nonPciSegments st → x ∈ unknownSegments st → False := by
    intro x hx1 hx2
    obtain ⟨v, hv, hv1, hv2⟩ := (mem_unknownSegments st x).mp hx2
    exact hv2 (keys_nodup_val_unique st hnd x v "non_pci" hv
      ((mem_nonPciSegments st x).mp hx1))
  unfold orderedSegments
  rw [List.append_assoc]
  constructor
  · intro hs ht
    have h1 : listIdx s (pciSegments st ++ (nonPciSegments st ++ unknownSegments st)) =
        listIdx s (pciSegments st) := listIdx_append_left _ _ _ hs
    have h2 : listIdx t (pciSegments st ++ (nonPciSegments st ++ unknownSegments st)) =
        (pciSegments st).length +
          listIdx t (nonPciSegments st ++ unknownSegments st) :=
      listIdx_append_right _ _ _ (fun hA => hPN t hA ht)
    have h3 : listIdx s (pciSegments st) < (pciSegments st).length :=
      listIdx_lt_length _ _ hs
    omega
  · intro ht hu
    have h2 : listIdx t (pciSegments st ++ (nonPciSegments st ++ unknownSegments st)) =
        (pciSegments st).length +
          listIdx t (nonPciSegments st ++ unknownSegments st) :=
      listIdx_append_right _ _ _ (fun hA => hPN t hA ht)
    have h3 : listIdx t (nonPciSegments st ++ unknownSegments st) =
        listIdx t (nonPciSegments st) := listIdx_append_left _ _ _ ht
    have h4 : listIdx t (nonPciSegments st) < (nonPciSegments st).length :=
      listIdx_lt_length _ _ ht
    have h5 : listIdx u (pciSegments st ++ (nonPciSegments st ++ unknownSegments st)) =
        (pciSegments st).length +
          listIdx u (nonPciSegments st ++ unknownSegments st) :=
      listIdx_append_right _ _ _ (fun hA => hPU u hA hu)
    have h6 : listIdx u (nonPciSegments st ++ unknownSegments st) =
        (nonPciSegments st).length + listIdx u (unknownSegments st) :=
      listIdx_append_right _ _ _ (fun hB => hNU u hB hu)
    omega

/-- Claim C8 witness: with one file of each kind the pci column comes
before the non_pci column, which comes before the unknown column. -/
theorem segment_columns_ordered_witness :
    listIdx "DMZ" (orderedSegments
        [("DMZ", "pci"), ("Corp", "non_pci"), ("Other", "unknown")]) <
      listIdx "Corp" (orderedSegments
        [("DMZ", "pci"), ("Corp", "non_pci"), ("Other", "unknown")]) ∧
    listIdx "Corp" (orderedSegments
        [("DMZ", "pci"), ("Corp", "non_pci"), ("Other", "unknown")]) <
      listIdx "Other" (orderedSegments
        [("DMZ", "pci"), ("Corp", "non_pci"), ("Other", "unknown")]) :=
  ⟨(segment_columns_ordered
      [{ name := "PCI - DMZ.gnmap", lines := [] },
       { name := "NON PCI - Corp.gnmap", lines := [] },
       { name := "Other.gnmap", lines := [] }]
      [("DMZ", []), ("Corp", []), ("Other", [])]
      [("DMZ", "pci"), ("Corp", "non_pci"), ("Other", "unknown")]
      (by decide) "DMZ" "Corp" "Other").1 (by decide) (by decide),
   (segment_columns_ordered
      [{ name := "PCI - DMZ.gnmap", lines := [] },
       { name := "NON PCI - Corp.gnmap", lines := [] },
       { name := "Other.gnmap", lines := [] }]
      [("DMZ", []), ("Corp", []), ("Other", [])]
      [("DMZ", "pci"), ("Corp", "non_pci"), ("Other", "unknown")]
      (by decide) "DMZ" "Corp" "Other").2 (by decide) (by decide)⟩
